import Mathlib

/-!
# Verification of the Sinilink BLE amplifier communication core

Shallow embedding of `custom_components/sinilink/sinilink.py` and the
mute operation of `custom_components/sinilink/media_player.py`.

The BLE transport (resolution service, GATT client) is modelled as an
oracle of response streams, one per primitive, consumed in call order.
Python exceptions are modelled with `Except`: a primitive whose oracle
entry says `bleakErr`/`otherErr` raises, and the embedding catches
exactly where the Python code has `try`/`except` handlers.
Bytes are `Nat` values below 256; frames are `List Nat`.
-/

set_option maxRecDepth 100000

namespace Sinilink

/-- Result of one transport primitive call: success, a raised
`BleakError`, or a raised generic `Exception`. -/
inductive Outcome where
  | ok
  | bleakErr
  | otherErr
deriving DecidableEq, Repr

/-- A Python exception crossing a call boundary: `BleakError` or any
other `Exception`. -/
inductive PyExn where
  | bleak
  | other
deriving DecidableEq, Repr

/-- A BLE device reference as returned by the resolution service
(`bluetooth.async_ble_device_from_address`): carries an address that
may be `None` (Python falsy also when the empty string). -/
structure BLEDev where
  address : Option String
deriving DecidableEq, Repr

/-- Python truthiness of `ble_device.address`. -/
def BLEDev.addrTruthy (d : BLEDev) : Bool :=
  match d.address with
  | none => false
  | some a => !a.isEmpty

/-- A `BleakClient` handle, constructed from a resolved device. -/
structure BleakClient where
  dev : BLEDev
deriving DecidableEq, Repr

/-- The transport oracle: the i-th call of each primitive receives the
i-th entry of its stream.  `isConn` answers each `is_connected` query;
`gattDisc` outcomes are consumed even when the code swallows them. -/
structure Oracle where
  resolve : Nat → Option BLEDev
  isConn : Nat → Bool
  gattConnect : Nat → Outcome
  write : Nat → Outcome
  gattDisc : Nat → Outcome

/-- Instrumentation: how many times each transport primitive has been
invoked, plus how many times the `connect()` method itself was entered. -/
structure Counters where
  nResolve : Nat := 0
  nIsConn : Nat := 0
  nGattConnect : Nat := 0
  nWrite : Nat := 0
  nGattDisc : Nat := 0
  nConnectCalls : Nat := 0
deriving DecidableEq, Repr

/-- The mutable fields of `SinilinkInstance` (`__init__`): `_device`,
`_is_on`, `_volume`.  `_volume` is modelled as `Option Int` because the
code tests `self._volume is not None`; `__init__` sets it to `0`
(i.e. `some 0`), never to `None`. -/
structure SinilinkInstance where
  mac : String
  device : Option BleakClient
  is_on : Bool
  volume : Option Int
deriving DecidableEq, Repr

/-- State of `SinilinkInstance.__init__ (mac, hass)`. -/
def initInstance (mac : String) : SinilinkInstance :=
  { mac := mac, device := none, is_on := false, volume := some 0 }

/-- Whole-run state: session fields, call counters, and two logs: the
`data` argument of each `_send` call, and the payload of each attempted
`write_gatt_char` call. -/
structure St where
  sess : SinilinkInstance
  cnt : Counters
  sendLog : List (List Nat)
  writeLog : List (List Nat)
deriving DecidableEq, Repr

/-- The vendor write characteristic UUID. -/
def WRITE_UUID : String := "0000ae10-0000-1000-8000-00805f9b34fb"

/-! ## CRC-8/MAXIM (`crccheck.crc.Crc8Maxim`): poly 0x31 reflected
(0x8C), init 0x00, xorout 0x00. -/

/-- One bit step of the reflected CRC-8/MAXIM computation. -/
def crc8Step (crc : Nat) : Nat :=
  if crc % 2 = 1 then (crc / 2) ^^^ 0x8c else crc / 2

/-- Fold one data byte into the running CRC. -/
def crc8Byte (crc b : Nat) : Nat :=
  crc8Step^[8] (crc ^^^ (b % 256))

/-- CRC-8/MAXIM of a byte list (the byte `Crc8Maxim().process(data)`
leaves in `finalbytes()`). -/
def crc8Maxim (data : List Nat) : Nat :=
  data.foldl crc8Byte 0

/-! ## Counter / log bookkeeping helpers. -/

/-- Record one call of the resolution service. -/
def bumpResolve (s : St) : St :=
  { s with cnt := { s.cnt with nResolve := s.cnt.nResolve + 1 } }

/-- Record one `is_connected` query. -/
def bumpIsConn (s : St) : St :=
  { s with cnt := { s.cnt with nIsConn := s.cnt.nIsConn + 1 } }

/-- Record one `BleakClient.connect` attempt. -/
def bumpGattConnect (s : St) : St :=
  { s with cnt := { s.cnt with nGattConnect := s.cnt.nGattConnect + 1 } }

/-- Record one `BleakClient.disconnect` attempt. -/
def bumpGattDisc (s : St) : St :=
  { s with cnt := { s.cnt with nGattDisc := s.cnt.nGattDisc + 1 } }

/-- Record one entry into the `connect()` method. -/
def bumpConnectCalls (s : St) : St :=
  { s with cnt := { s.cnt with nConnectCalls := s.cnt.nConnectCalls + 1 } }

/-- Record one `write_gatt_char` attempt with its payload. -/
def logWrite (payload : List Nat) (s : St) : St :=
  { s with cnt := { s.cnt with nWrite := s.cnt.nWrite + 1 },
           writeLog := s.writeLog ++ [payload] }

/-- Record the `data` argument of a `_send` call. -/
def logSend (data : List Nat) (s : St) : St :=
  { s with sendLog := s.sendLog ++ [data] }

/-- Assign `self._device`. -/
def setDevice (s : St) (d : Option BleakClient) : St :=
  { s with sess := { s.sess with device := d } }

/-! ## Connection lifecycle (`connect`, `disconnect`). -/

/-- Final teardown block of `connect()`: best-effort disconnect of any
partially-open handle (both exception kinds swallowed), clear the
handle, return `False`. -/
def connectTeardown (_o : Oracle) (s : St) : Bool × St :=
  let s :=
    match s.sess.device with
    | some _ => bumpGattDisc s
    | none => s
  (false, setDevice s none)

/-- Body of `connect()` after the already-connected early return:
resolve the address, handle the not-found and missing-address cases,
else create a fresh `BleakClient` and attempt a GATT connect followed
by a settle delay and a liveness check. -/
def connectBody (o : Oracle) (s : St) : Bool × St :=
  let ble := o.resolve s.cnt.nResolve
  let s := bumpResolve s
  match ble with
  | none =>
    match s.sess.device with
    | some _ =>
      let c := o.isConn s.cnt.nIsConn
      let s := bumpIsConn s
      let s := if c then bumpGattDisc s else s
      (false, setDevice s none)
    | none => (false, s)
  | some dev =>
    if dev.addrTruthy then
      let s := setDevice s (some { dev := dev })
      let r := o.gattConnect s.cnt.nGattConnect
      let s := bumpGattConnect s
      match r with
      | .ok =>
        let c := o.isConn s.cnt.nIsConn
        let s := bumpIsConn s
        if c then (true, s)
        else connectTeardown o s
      | .bleakErr => connectTeardown o s
      | .otherErr => connectTeardown o s
    else (false, setDevice s none)

/-- `SinilinkInstance.connect`: early-return `True` when the current
handle reports connected, else run the resolve/connect body. -/
def connect (o : Oracle) (s : St) : Bool × St :=
  let s := bumpConnectCalls s
  match s.sess.device with
  | some _ =>
    let c := o.isConn s.cnt.nIsConn
    let s := bumpIsConn s
    if c then (true, s)
    else connectBody o s
  | none => connectBody o s

/-- `SinilinkInstance.disconnect`: best-effort close when the handle
reports connected (exceptions swallowed), then clear the handle. -/
def disconnect (o : Oracle) (s : St) : Except PyExn (Option Bool) × St :=
  let s :=
    match s.sess.device with
    | some _ =>
      let c := o.isConn s.cnt.nIsConn
      let s := bumpIsConn s
      if c then bumpGattDisc s else s
    | none => s
  (.ok none, setDevice s none)

/-! ## `_send` with its retry policy. -/

/-- The payload `_send` writes: `data + Crc8Maxim(data).finalbytes()`. -/
def sendPayload (data : List Nat) : List Nat :=
  data ++ [crc8Maxim data]

/-- The write phase of `_send` (from the CRC computation onward): one
write; on `BleakError` one reconnect and, if it succeeds, one retried
write whose errors are logged and swallowed; on any other exception,
log and return. -/
def sendAttempts (o : Oracle) (data : List Nat) (s : St) :
    Except PyExn (Option Bool) × St :=
  let payload := sendPayload data
  let w := o.write s.cnt.nWrite
  let s := logWrite payload s
  match w with
  | .ok => (.ok none, s)
  | .bleakErr =>
    match connect o s with
    | (true, s) =>
      let s := logWrite payload s
      (.ok none, s)
    | (false, s) => (.ok none, s)
  | .otherErr => (.ok none, s)

/-- `SinilinkInstance._send`: ensure a connection (aborting on
failure), then run the write/retry phase. -/
def send (o : Oracle) (data : List Nat) (s : St) :
    Except PyExn (Option Bool) × St :=
  let s := logSend data s
  match s.sess.device with
  | none =>
    match connect o s with
    | (true, s) => sendAttempts o data s
    | (false, s) => (.ok none, s)
  | some _ =>
    let c := o.isConn s.cnt.nIsConn
    let s := bumpIsConn s
    if c then sendAttempts o data s
    else
      match connect o s with
      | (true, s) => sendAttempts o data s
      | (false, s) => (.ok none, s)

/-! ## Frame construction and the public operations. -/

/-- Python `int(x / 5)`: true division followed by `int()` truncation
toward zero.  For the magnitudes occurring here (|x| ≤ a few hundred)
the float division is exact enough that this equals integer division
truncated toward zero, i.e. `Int.tdiv`. -/
def pyTrunc5 (x : Int) : Int :=
  Int.tdiv x 5

/-- Python `x.to_bytes(1, 'big')`: one byte for `0 ≤ x ≤ 255`, else an
`OverflowError` (a generic `Exception`). -/
def toBytes1 (x : Int) : Except PyExn (List Nat) :=
  if 0 ≤ x ∧ x < 256 then .ok [x.toNat] else .error .other

/-- `bytes.fromhex("7e0f1d")`, the power/volume frame header. -/
def headerBytes : List Nat := [0x7e, 0x0f, 0x1d]

/-- `bytes.fromhex("00000000000000000000")`, the 10 zero parameter bytes. -/
def paramsBytes : List Nat := List.replicate 10 0

/-- The `header + command + params + sufix` bytes built identically in
`set_volume` and `turn_on`: command byte is the volume bucket, suffix
byte is `volume + 170` (each via `to_bytes(1, 'big')`). -/
def powerVolFrame (volume : Int) : Except PyExn (List Nat) :=
  match toBytes1 volume with
  | .error e => .error e
  | .ok command =>
    match toBytes1 (volume + 170) with
    | .error e => .error e
    | .ok sufix => .ok (headerBytes ++ command ++ paramsBytes ++ sufix)

/-- `SinilinkInstance.set_volume`: build the volume frame for bucket
`int(intensity / 5)`, send it, then cache `_volume = intensity`. -/
def set_volume (o : Oracle) (intensity : Int) (s : St) :
    Except PyExn (Option Bool) × St :=
  let volume := pyTrunc5 intensity
  match powerVolFrame volume with
  | .error e => (.error e, s)
  | .ok data =>
    match send o data s with
    | (.ok _, s) =>
      (.ok none, { s with sess := { s.sess with volume := some intensity } })
    | (.error e, s) => (.error e, s)

/-- `SinilinkInstance.turn_on`: set `_is_on = True` first, pick bucket 7
unless `_volume is not None` (then bucket `int(_volume / 5)`), build the
power/volume frame and send it. -/
def turn_on (o : Oracle) (s : St) : Except PyExn (Option Bool) × St :=
  let s := { s with sess := { s.sess with is_on := true } }
  let volume : Int := 7
  let volume :=
    match s.sess.volume with
    | some v => pyTrunc5 v
    | none => volume
  match powerVolFrame volume with
  | .error e => (.error e, s)
  | .ok data =>
    match send o data s with
    | (.ok _, s) => (.ok none, s)
    | (.error e, s) => (.error e, s)

/-- The constant frame bytes `turn_off` builds:
`7e0f1d` + `00` + ten `00` bytes + `aa`. -/
def powerOffData : List Nat := headerBytes ++ [0x00] ++ paramsBytes ++ [0xaa]

/-- `SinilinkInstance.turn_off`: set `_is_on = False` first, then send
the constant power-off frame. -/
def turn_off (o : Oracle) (s : St) : Except PyExn (Option Bool) × St :=
  let s := { s with sess := { s.sess with is_on := false } }
  match send o powerOffData s with
  | (.ok _, s) => (.ok none, s)
  | (.error e, s) => (.error e, s)

/-- `bytes.fromhex("7e05140097")`, the Bluetooth source literal. -/
def bluetoothCmd : List Nat := [0x7e, 0x05, 0x14, 0x00, 0x97]

/-- `bytes.fromhex("7e05160099")`, the AUX source literal. -/
def auxCmd : List Nat := [0x7e, 0x05, 0x16, 0x00, 0x99]

/-- `SinilinkInstance.bluetooth`: send the Bluetooth source literal. -/
def bluetooth (o : Oracle) (s : St) : Except PyExn (Option Bool) × St :=
  match send o bluetoothCmd s with
  | (.ok _, s) => (.ok none, s)
  | (.error e, s) => (.error e, s)

/-- `SinilinkInstance.aux`: send the AUX source literal. -/
def aux (o : Oracle) (s : St) : Except PyExn (Option Bool) × St :=
  match send o auxCmd s with
  | (.ok _, s) => (.ok none, s)
  | (.error e, s) => (.error e, s)

/-! ## The media player mute operation (`media_player.py`). -/

/-- The `SinilinkAmplifier` fields the mute operation touches:
`_muted` and `_media_volume_level` (a float in 0..1, modelled as a
rational). -/
structure AmplifierState where
  muted : Bool
  media_volume_level : ℚ

/-- `_volume_max` from `SinilinkAmplifier.__init__`. -/
def volume_max : ℚ := 255

/-- Python `int()` applied to a rational value: truncation toward
zero. -/
def ratTrunc (q : ℚ) : Int :=
  if 0 ≤ q then ⌊q⌋ else -⌊-q⌋

/-- Python `int(mute)` for a bool: `True → 1`, `False → 0`. -/
def intOfBool (b : Bool) : Int :=
  if b then 1 else 0

/-- `SinilinkAmplifier.async_mute_volume`: send
`set_volume(int(_media_volume_level * _volume_max) * int(mute))`, then
set `_muted = mute`. -/
def async_mute_volume (o : Oracle) (mute : Bool) (mp : AmplifierState)
    (s : St) : Except PyExn (Option Bool) × (AmplifierState × St) :=
  let intensity := ratTrunc (mp.media_volume_level * volume_max) * intOfBool mute
  match set_volume o intensity s with
  | (.ok _, s) => (.ok none, ({ mp with muted := mute }, s))
  | (.error e, s) => (.error e, (mp, s))

/-! ## Characterization lemmas for `connect` and `send`. -/

/-- Fields `connect` never touches, plus its counter bookkeeping. -/
def ConnSpec (s s' : St) : Prop :=
  s'.sess.mac = s.sess.mac ∧
  s'.sess.is_on = s.sess.is_on ∧
  s'.sess.volume = s.sess.volume ∧
  s'.sendLog = s.sendLog ∧
  s'.writeLog = s.writeLog ∧
  s'.cnt.nWrite = s.cnt.nWrite ∧
  s'.cnt.nConnectCalls = s.cnt.nConnectCalls + 1 ∧
  s'.cnt.nGattConnect ≤ s.cnt.nGattConnect + 1

theorem connectBody_res (o : Oracle) (s : St) :
    ∃ b s', connectBody o s = (b, s') ∧
      s'.sess.mac = s.sess.mac ∧
      s'.sess.is_on = s.sess.is_on ∧
      s'.sess.volume = s.sess.volume ∧
      s'.sendLog = s.sendLog ∧ s'.writeLog = s.writeLog ∧
      s'.cnt.nWrite = s.cnt.nWrite ∧
      s'.cnt.nConnectCalls = s.cnt.nConnectCalls ∧
      s'.cnt.nGattConnect ≤ s.cnt.nGattConnect + 1 ∧
      (b = false → s'.sess.device = none) := by
  unfold connectBody connectTeardown
  dsimp only
  repeat' split
  all_goals refine ⟨_, _, rfl, ?_⟩
  all_goals simp_all [bumpResolve, bumpIsConn, bumpGattConnect, bumpGattDisc,
    setDevice]

theorem connect_res (o : Oracle) (s : St) :
    ∃ b s', connect o s = (b, s') ∧
      s'.sess.mac = s.sess.mac ∧
      s'.sess.is_on = s.sess.is_on ∧
      s'.sess.volume = s.sess.volume ∧
      s'.sendLog = s.sendLog ∧ s'.writeLog = s.writeLog ∧
      s'.cnt.nWrite = s.cnt.nWrite ∧
      s'.cnt.nConnectCalls = s.cnt.nConnectCalls + 1 ∧
      s'.cnt.nGattConnect ≤ s.cnt.nGattConnect + 1 ∧
      (b = false → s'.sess.device = none) := by
  unfold connect
  dsimp only
  split
  · split
    · exact ⟨true, _, rfl, by simp [bumpConnectCalls, bumpIsConn]⟩
    · obtain ⟨b, s', h, hp⟩ :=
        connectBody_res o (bumpIsConn (bumpConnectCalls s))
      refine ⟨b, s', h, ?_⟩
      simp_all [bumpConnectCalls, bumpIsConn]
  · obtain ⟨b, s', h, hp⟩ := connectBody_res o (bumpConnectCalls s)
    refine ⟨b, s', h, ?_⟩
    simp_all [bumpConnectCalls]

theorem disconnect_res (o : Oracle) (s : St) :
    ∃ s', disconnect o s = (.ok none, s') ∧
      s'.sess.device = none ∧
      s'.sess.mac = s.sess.mac ∧
      s'.sess.is_on = s.sess.is_on ∧
      s'.sess.volume = s.sess.volume ∧
      s'.sendLog = s.sendLog ∧ s'.writeLog = s.writeLog ∧
      s'.cnt.nWrite = s.cnt.nWrite := by
  unfold disconnect
  dsimp only
  repeat' split
  all_goals refine ⟨_, rfl, ?_⟩
  all_goals simp [bumpIsConn, bumpGattDisc, setDevice]

theorem sendAttempts_res (o : Oracle) (data : List Nat) (s : St) :
    ∃ s', sendAttempts o data s = (.ok none, s') ∧
      s'.sess.mac = s.sess.mac ∧
      s'.sess.is_on = s.sess.is_on ∧
      s'.sess.volume = s.sess.volume ∧
      s'.sendLog = s.sendLog ∧
      (∃ k, (k = 1 ∨ k = 2) ∧
        s'.writeLog = s.writeLog ++ List.replicate k (sendPayload data) ∧
        s'.cnt.nWrite = s.cnt.nWrite + k) ∧
      s'.cnt.nGattConnect ≤ s.cnt.nGattConnect + 1 ∧
      s'.cnt.nConnectCalls ≤ s.cnt.nConnectCalls + 1 := by
  unfold sendAttempts
  dsimp only
  split
  · refine ⟨_, rfl, ?_⟩
    refine ⟨by simp [logWrite], by simp [logWrite], by simp [logWrite],
      by simp [logWrite], ⟨1, by simp, by simp [logWrite], by simp [logWrite]⟩,
      by simp [logWrite], by simp [logWrite]⟩
  · obtain ⟨b, s', h, h1, h2, h3, h4, h5, h6, h7, h8, h9⟩ :=
      connect_res o (logWrite (sendPayload data) s)
    rw [h]
    rcases b
    all_goals dsimp only
    · refine ⟨s', rfl, ?_⟩
      simp only [logWrite] at h1 h2 h3 h4 h5 h6 h7 h8
      refine ⟨h1, h2, h3, h4, ⟨1, by simp, ?_, ?_⟩, by omega, by omega⟩
      · simpa using h5
      · omega
    · refine ⟨logWrite (sendPayload data) s', rfl, ?_⟩
      simp only [logWrite] at h1 h2 h3 h4 h5 h6 h7 h8 ⊢
      refine ⟨h1, h2, h3, h4, ⟨2, by simp, ?_, ?_⟩, by omega, by omega⟩
      · simp [h5, List.replicate_succ]
      · omega
  · refine ⟨_, rfl, ?_⟩
    refine ⟨by simp [logWrite], by simp [logWrite], by simp [logWrite],
      by simp [logWrite], ⟨1, by simp, by simp [logWrite], by simp [logWrite]⟩,
      by simp [logWrite], by simp [logWrite]⟩

theorem send_res (o : Oracle) (data : List Nat) (s : St) :
    ∃ s', send o data s = (.ok none, s') ∧
      s'.sess.mac = s.sess.mac ∧
      s'.sess.is_on = s.sess.is_on ∧
      s'.sess.volume = s.sess.volume ∧
      s'.sendLog = s.sendLog ++ [data] ∧
      (∃ k, k ≤ 2 ∧
        s'.writeLog = s.writeLog ++ List.replicate k (sendPayload data) ∧
        s'.cnt.nWrite = s.cnt.nWrite + k) ∧
      s'.cnt.nGattConnect ≤ s.cnt.nGattConnect + 2 ∧
      s'.cnt.nConnectCalls ≤ s.cnt.nConnectCalls + 2 := by
  unfold send
  dsimp only
  split
  · obtain ⟨b, s₁, h, h1, h2, h3, h4, h5, h6, h7, h8, h9⟩ :=
      connect_res o (logSend data s)
    rw [h]
    rcases b
    all_goals dsimp only
    · refine ⟨s₁, rfl, ?_⟩
      simp only [logSend] at h1 h2 h3 h4 h5 h6 h7 h8
      exact ⟨h1, h2, h3, h4, ⟨0, by omega, by simp [h5], by omega⟩,
        by omega, by omega⟩
    · obtain ⟨s₂, h', g1, g2, g3, g4, ⟨k, hk, g6, g7⟩, g8, g9⟩ :=
        sendAttempts_res o data s₁
      rw [h']
      refine ⟨s₂, rfl, ?_⟩
      simp only [logSend] at h1 h2 h3 h4 h5 h6 h7 h8
      refine ⟨by rw [g1, h1], by rw [g2, h2], by rw [g3, h3],
        by rw [g4, h4], ⟨k, by omega, by rw [g6, h5], by omega⟩,
        by omega, by omega⟩
  · split
    · obtain ⟨s₂, h', g1, g2, g3, g4, ⟨k, hk, g6, g7⟩, g8, g9⟩ :=
        sendAttempts_res o data (bumpIsConn (logSend data s))
      rw [h']
      refine ⟨s₂, rfl, ?_⟩
      simp only [logSend, bumpIsConn] at g1 g2 g3 g4 g6 g7 g8 g9
      exact ⟨g1, g2, g3, g4, ⟨k, by omega, g6, by omega⟩, by omega, by omega⟩
    · obtain ⟨b, s₁, h, h1, h2, h3, h4, h5, h6, h7, h8, h9⟩ :=
        connect_res o (bumpIsConn (logSend data s))
      rw [h]
      rcases b
      all_goals dsimp only
      · refine ⟨s₁, rfl, ?_⟩
        simp only [logSend, bumpIsConn] at h1 h2 h3 h4 h5 h6 h7 h8
        exact ⟨h1, h2, h3, h4, ⟨0, by omega, by simp [h5], by omega⟩,
          by omega, by omega⟩
      · obtain ⟨s₂, h', g1, g2, g3, g4, ⟨k, hk, g6, g7⟩, g8, g9⟩ :=
          sendAttempts_res o data s₁
        rw [h']
        refine ⟨s₂, rfl, ?_⟩
        simp only [logSend, bumpIsConn] at h1 h2 h3 h4 h5 h6 h7 h8
        refine ⟨by rw [g1, h1], by rw [g2, h2], by rw [g3, h3],
          by rw [g4, h4], ⟨k, by omega, by rw [g6, h5], by omega⟩,
          by omega, by omega⟩

/-! ## Frame-level facts and per-operation lemmas. -/

theorem pyTrunc5_toNat (x : Int) (h0 : 0 ≤ x) :
    pyTrunc5 x = ((x.toNat / 5 : Nat) : Int) := by
  unfold pyTrunc5
  rw [Int.tdiv_eq_ediv h0 (by norm_num)]
  omega

/-- The byte list `header + command + params + sufix` evaluates to for
an in-range bucket `v`. -/
def volFrameData (v : Int) : List Nat :=
  headerBytes ++ [v.toNat] ++ paramsBytes ++ [(v + 170).toNat]

theorem powerVolFrame_ok (v : Int) (h0 : 0 ≤ v) (h1 : v + 170 ≤ 255) :
    powerVolFrame v = .ok (volFrameData v) := by
  unfold powerVolFrame toBytes1 volFrameData
  rw [if_pos ⟨h0, by omega⟩, if_pos ⟨by omega, by omega⟩]

/-- Validity of a cached `_volume` value: absent, or an intensity in
[0, 255]. -/
def VolOk : Option Int → Prop := fun ov =>
  match ov with
  | none => True
  | some v => 0 ≤ v ∧ v ≤ 255

/-- The bucket `turn_on` computes from the cached volume: the dead
default 7 when `_volume is None`, else `int(_volume / 5)`. -/
def onBucket : Option Int → Int := fun ov =>
  match ov with
  | some v => pyTrunc5 v
  | none => 7

theorem set_volume_res (o : Oracle) (intensity : Int) (s : St)
    (h0 : 0 ≤ intensity) (h1 : intensity ≤ 255) :
    ∃ s', set_volume o intensity s = (.ok none, s') ∧
      s'.sess.mac = s.sess.mac ∧
      s'.sess.is_on = s.sess.is_on ∧
      s'.sess.volume = some intensity ∧
      s'.sendLog = s.sendLog ++ [volFrameData (pyTrunc5 intensity)] ∧
      (∃ k, k ≤ 2 ∧ s'.writeLog = s.writeLog ++
        List.replicate k (sendPayload (volFrameData (pyTrunc5 intensity)))) := by
  have ht := pyTrunc5_toNat intensity h0
  have hb0 : 0 ≤ pyTrunc5 intensity := by rw [ht]; omega
  have hb1 : pyTrunc5 intensity ≤ 51 := by rw [ht]; omega
  unfold set_volume
  dsimp only
  rw [powerVolFrame_ok _ hb0 (by omega)]
  dsimp only
  obtain ⟨s', hs, g1, g2, g3, g4, ⟨k, hk, g5, g6⟩, g7, g8⟩ :=
    send_res o (volFrameData (pyTrunc5 intensity)) s
  rw [hs]
  exact ⟨_, rfl, g1, g2, rfl, g4, ⟨k, hk, g5⟩⟩

theorem turn_on_res (o : Oracle) (s : St) (hv : VolOk s.sess.volume) :
    ∃ s', turn_on o s = (.ok none, s') ∧
      s'.sess.mac = s.sess.mac ∧
      s'.sess.is_on = true ∧
      s'.sess.volume = s.sess.volume ∧
      s'.sendLog = s.sendLog ++ [volFrameData (onBucket s.sess.volume)] ∧
      (∃ k, k ≤ 2 ∧ s'.writeLog = s.writeLog ++
        List.replicate k (sendPayload (volFrameData (onBucket s.sess.volume)))) := by
  unfold turn_on
  dsimp only
  rcases hvol : s.sess.volume with _ | v
  · simp only [hvol]
    rw [powerVolFrame_ok 7 (by norm_num) (by norm_num)]
    dsimp only
    obtain ⟨s', hs, g1, g2, g3, g4, ⟨k, hk, g5, g6⟩, g7, g8⟩ :=
      send_res o (volFrameData 7)
        { s with sess := { s.sess with is_on := true, volume := none } }
    rw [hs]
    refine ⟨s', rfl, by simpa using g1, by simpa using g2,
      by simpa [hvol] using g3, by simpa [onBucket] using g4,
      ⟨k, hk, by simpa [onBucket] using g5⟩⟩
  · rw [hvol] at hv
    obtain ⟨hv0, hv1⟩ := hv
    have ht := pyTrunc5_toNat v hv0
    simp only [hvol]
    rw [powerVolFrame_ok (pyTrunc5 v) (by rw [ht]; omega) (by rw [ht]; omega)]
    dsimp only
    obtain ⟨s', hs, g1, g2, g3, g4, ⟨k, hk, g5, g6⟩, g7, g8⟩ :=
      send_res o (volFrameData (pyTrunc5 v))
        { s with sess := { s.sess with is_on := true, volume := some v } }
    rw [hs]
    refine ⟨s', rfl, by simpa using g1, by simpa using g2,
      by simpa [hvol] using g3, by simpa [onBucket] using g4,
      ⟨k, hk, by simpa [onBucket] using g5⟩⟩

theorem turn_off_res (o : Oracle) (s : St) :
    ∃ s', turn_off o s = (.ok none, s') ∧
      s'.sess.mac = s.sess.mac ∧
      s'.sess.is_on = false ∧
      s'.sess.volume = s.sess.volume ∧
      s'.sendLog = s.sendLog ++ [powerOffData] ∧
      (∃ k, k ≤ 2 ∧ s'.writeLog = s.writeLog ++
        List.replicate k (sendPayload powerOffData)) := by
  unfold turn_off
  dsimp only
  obtain ⟨s', hs, g1, g2, g3, g4, ⟨k, hk, g5, g6⟩, g7, g8⟩ :=
    send_res o powerOffData { s with sess := { s.sess with is_on := false } }
  rw [hs]
  exact ⟨s', rfl, by simpa using g1, by simpa using g2, by simpa using g3,
    by simpa using g4, ⟨k, hk, by simpa using g5⟩⟩

theorem aux_res (o : Oracle) (s : St) :
    ∃ s', aux o s = (.ok none, s') ∧
      s'.sess.is_on = s.sess.is_on ∧
      s'.sess.volume = s.sess.volume ∧
      s'.sendLog = s.sendLog ++ [auxCmd] ∧
      (∃ k, k ≤ 2 ∧ s'.writeLog = s.writeLog ++
        List.replicate k (sendPayload auxCmd)) := by
  unfold aux
  obtain ⟨s', hs, g1, g2, g3, g4, ⟨k, hk, g5, g6⟩, g7, g8⟩ :=
    send_res o auxCmd s
  rw [hs]
  exact ⟨s', rfl, g2, g3, g4, ⟨k, hk, g5⟩⟩

theorem bluetooth_res (o : Oracle) (s : St) :
    ∃ s', bluetooth o s = (.ok none, s') ∧
      s'.sess.is_on = s.sess.is_on ∧
      s'.sess.volume = s.sess.volume ∧
      s'.sendLog = s.sendLog ++ [bluetoothCmd] ∧
      (∃ k, k ≤ 2 ∧ s'.writeLog = s.writeLog ++
        List.replicate k (sendPayload bluetoothCmd)) := by
  unfold bluetooth
  obtain ⟨s', hs, g1, g2, g3, g4, ⟨k, hk, g5, g6⟩, g7, g8⟩ :=
    send_res o bluetoothCmd s
  rw [hs]
  exact ⟨s', rfl, g2, g3, g4, ⟨k, hk, g5⟩⟩

/-! ## Concrete transports and states for scenario runs. -/

/-- A BLE device the resolution service can return. -/
def devA : BLEDev := { address := some "AA:BB:CC:DD:EE:FF" }

/-- A transport where everything succeeds and every liveness query
reports connected. -/
def oGood : Oracle :=
  { resolve := fun _ => some devA
    isConn := fun _ => true
    gattConnect := fun _ => .ok
    write := fun _ => .ok
    gattDisc := fun _ => .ok }

/-- A transport whose resolution service never finds the device. -/
def oNoDevice : Oracle :=
  { resolve := fun _ => none
    isConn := fun _ => false
    gattConnect := fun _ => .bleakErr
    write := fun _ => .bleakErr
    gattDisc := fun _ => .bleakErr }

/-- A transport where the device stays connected but the first write
raises `BleakError`; later writes succeed. -/
def oFirstWriteFails : Oracle :=
  { resolve := fun _ => some devA
    isConn := fun _ => true
    gattConnect := fun _ => .ok
    write := fun i => if i = 0 then .bleakErr else .ok
    gattDisc := fun _ => .ok }

/-- A freshly constructed session, logs and counters empty. -/
def stFresh : St :=
  { sess := initInstance "AA:BB:CC:DD:EE:FF", cnt := {},
    sendLog := [], writeLog := [] }

/-- A fresh session that already holds an open handle. -/
def stConn : St :=
  { stFresh with sess := { stFresh.sess with device := some { dev := devA } } }

/-! ## Claim theorems. -/

/-- C1 counterexample: when resolution fails, `turn_on` performs no
write at all (the send aborts, so the send failed), yet the cached
power state changes from `false` to `true` — the cache is not left
"equal to its value before the call". -/
theorem C1_cex_turn_on_cache_changes_on_failed_send :
    stFresh.sess.is_on = false ∧
    (turn_on oNoDevice stFresh).2.cnt.nWrite = 0 ∧
    (turn_on oNoDevice stFresh).2.sess.is_on = true :=
  ⟨rfl, rfl, rfl⟩

/-- C1 amended: the caches are updated unconditionally, not only after
a successful send: `turn_on` sets the cached power state to `true`
before sending, and `set_volume` caches the intensity after `_send`
returns, whatever the transport did. -/
theorem C1_amended_cache_updated_unconditionally :
    (∀ (o : Oracle) (s : St), (turn_on o s).2.sess.is_on = true) ∧
    (∀ (o : Oracle) (s : St) (intensity : Int), 0 ≤ intensity →
      intensity ≤ 255 →
      (set_volume o intensity s).2.sess.volume = some intensity) := by
  constructor
  · intro o s
    unfold turn_on
    dsimp only
    split
    · rfl
    · obtain ⟨s', hs, g1, g2, g3, g4, g5, g6, g7⟩ :=
        send_res o _ { s with sess := { s.sess with is_on := true } }
      rw [hs]
      simpa using g2
  · intro o s intensity h0 h1
    obtain ⟨s', hs, _, _, g3, _, _⟩ := set_volume_res o intensity s h0 h1
    rw [hs]
    exact g3

/-- C1 amended witness at a concrete input. -/
theorem C1_amended_witness :
    (turn_on oGood stConn).2.sess.is_on = true ∧
    (set_volume oGood 100 stConn).2.sess.volume = some 100 :=
  ⟨C1_amended_cache_updated_unconditionally.1 oGood stConn,
   C1_amended_cache_updated_unconditionally.2 oGood stConn 100
     (by decide) (by decide)⟩

/-- C2 counterexample: selecting AUX on a connected session writes 6
bytes — the 5-byte literal with a CRC-8/MAXIM byte (0x58) appended by
`_send` — not the bare 5-byte literal. -/
theorem C2_cex_source_frame_gets_checksum :
    (aux oGood stConn).2.writeLog = [[0x7e, 0x05, 0x16, 0x00, 0x99, 0x58]] ∧
    crc8Maxim auxCmd = 0x58 ∧
    (aux oGood stConn).2.writeLog ≠ [auxCmd] :=
  ⟨rfl, rfl, by decide⟩

/-- C2 amended: selecting a source writes the fixed 5-byte literal
with the CRC-8/MAXIM checksum of that literal appended by `_send` (6
bytes on the wire), since `_send` appends a checksum to every frame. -/
theorem C2_amended_source_frames (o : Oracle) (s : St) :
    (∃ k, k ≤ 2 ∧ (aux o s).2.writeLog =
      s.writeLog ++ List.replicate k (auxCmd ++ [crc8Maxim auxCmd])) ∧
    (∃ k, k ≤ 2 ∧ (bluetooth o s).2.writeLog =
      s.writeLog ++ List.replicate k (bluetoothCmd ++ [crc8Maxim bluetoothCmd])) ∧
    auxCmd = [0x7e, 0x05, 0x16, 0x00, 0x99] ∧
    bluetoothCmd = [0x7e, 0x05, 0x14, 0x00, 0x97] ∧
    crc8Maxim auxCmd = 0x58 ∧ crc8Maxim bluetoothCmd = 0x08 := by
  refine ⟨?_, ?_, rfl, rfl, rfl, rfl⟩
  · obtain ⟨s', hs, _, _, _, k, hk, g5⟩ := aux_res o s
    rw [hs]
    exact ⟨k, hk, by simpa [sendPayload] using g5⟩
  · obtain ⟨s', hs, _, _, _, k, hk, g5⟩ := bluetooth_res o s
    rw [hs]
    exact ⟨k, hk, by simpa [sendPayload] using g5⟩

/-- C6: on a fresh session with no prior `set_volume`, `turn_on` builds
the frame with command byte 0, not the default bucket 7 — `_volume` is
initialized to `0` rather than `None`, so the `volume = 7` default is
dead code. -/
theorem C6_first_power_on_uses_bucket_zero :
    stFresh.sess.volume = some 0 ∧
    (turn_on oGood stFresh).2.sendLog =
      [[0x7e, 0x0f, 0x1d, 0x00, 0, 0, 0, 0, 0, 0, 0, 0, 0, 0, 170]] ∧
    (0 : Nat) ≠ 7 :=
  ⟨rfl, rfl, by decide⟩

/-- C7 counterexample: the claim spells the power-off frame as the hex
literal `7e0f1d00000000000000000000aa`, which is 14 bytes (ten zero
bytes between the header and `aa`), but `turn_off` builds
header(3) + `00` + ten zero params + `aa` = 15 bytes.  On a concrete
connected run, the frame submitted has length 15 and the payload
written is not the claimed 14-byte literal plus checksum. -/
theorem C7_cex_claimed_literal_is_14_bytes :
    (turn_off oGood stConn).2.sendLog = [powerOffData] ∧
    powerOffData.length = 15 ∧
    ([0x7e, 0x0f, 0x1d] ++ List.replicate 10 0 ++ [0xaa]).length = 14 ∧
    powerOffData ≠ [0x7e, 0x0f, 0x1d] ++ List.replicate 10 0 ++ [0xaa] ∧
    (turn_off oGood stConn).2.writeLog ≠
      [([0x7e, 0x0f, 0x1d] ++ List.replicate 10 0 ++ [0xaa]) ++
        [crc8Maxim ([0x7e, 0x0f, 0x1d] ++ List.replicate 10 0 ++ [0xaa])]] :=
  ⟨rfl, rfl, rfl, by decide, by decide⟩

/-- C7 amended: `turn_off` always submits the constant 15-byte literal
`7e0f1d0000000000000000000000aa` (header `7e0f1d`, command byte `00`,
ten zero bytes, suffix `aa` — one zero byte more than the claim's
spelling), and every payload actually written is that literal followed
by its correct CRC-8/MAXIM byte (0xAF). -/
theorem C7_turn_off_constant_frame (o : Oracle) (s : St) :
    powerOffData =
      [0x7e, 0x0f, 0x1d, 0x00, 0, 0, 0, 0, 0, 0, 0, 0, 0, 0, 0xaa] ∧
    (turn_off o s).2.sendLog = s.sendLog ++ [powerOffData] ∧
    (∃ k, k ≤ 2 ∧ (turn_off o s).2.writeLog =
      s.writeLog ++ List.replicate k (powerOffData ++ [crc8Maxim powerOffData])) ∧
    crc8Maxim powerOffData = 0xaf := by
  obtain ⟨s', hs, g1, g2, g3, g4, k, hk, g5⟩ := turn_off_res o s
  refine ⟨by decide, ?_, ⟨k, hk, ?_⟩, by decide⟩
  · rw [hs]
    exact g4
  · rw [hs]
    simpa [sendPayload] using g5

/-- C8: whenever `connect` returns failure the handle is `None`
afterward, and `disconnect` clears the handle unconditionally while
returning normally (transport errors during the close are swallowed). -/
theorem C8_handle_cleared :
    (∀ (o : Oracle) (s s' : St), connect o s = (false, s') →
      s'.sess.device = none) ∧
    (∀ (o : Oracle) (s : St), (disconnect o s).1 = .ok none ∧
      (disconnect o s).2.sess.device = none) := by
  constructor
  · intro o s s' h
    obtain ⟨b, s₂, hc, _, _, _, _, _, _, _, _, h9⟩ := connect_res o s
    rw [hc] at h
    injection h with hb hs
    exact hs ▸ h9 hb
  · intro o s
    obtain ⟨s', hs, hdev, _⟩ := disconnect_res o s
    rw [hs]
    exact ⟨rfl, hdev⟩

/-- C8 witness at concrete inputs. -/
theorem C8_witness :
    (connect oNoDevice stFresh).2.sess.device = none ∧
    ((disconnect oGood stConn).1 = .ok none ∧
      (disconnect oGood stConn).2.sess.device = none) :=
  ⟨C8_handle_cleared.1 oNoDevice stFresh _ rfl,
   C8_handle_cleared.2 oGood stConn⟩

/-- C5 counterexample: the public operations do not return a
success/failure result.  Two `turn_off` runs with opposite outcomes —
one delivers the frame (one successful write), the other performs no
write at all — return the identical value (Python `None`), so the
returned value cannot indicate the outcome. -/
theorem C5_cex_return_value_blind_to_outcome :
    (turn_off oNoDevice stFresh).1 = (turn_off oGood stConn).1 ∧
    (turn_off oGood stConn).2.cnt.nWrite = 1 ∧
    oGood.write 0 = .ok ∧
    (turn_off oNoDevice stFresh).2.cnt.nWrite = 0 :=
  ⟨rfl, rfl, rfl, rfl⟩

/-- C5 amended: no transport exception propagates out of any public
operation (each returns normally for every transport behavior), but
the state-changing operations always return Python `None` — the
outcome is only logged, not returned; `connect` alone yields a
boolean. -/
theorem C5_amended_no_exception_escapes :
    (∀ (o : Oracle) (s : St), (turn_off o s).1 = .ok none) ∧
    (∀ (o : Oracle) (s : St), (aux o s).1 = .ok none) ∧
    (∀ (o : Oracle) (s : St), (bluetooth o s).1 = .ok none) ∧
    (∀ (o : Oracle) (s : St), (disconnect o s).1 = .ok none) ∧
    (∀ (o : Oracle) (data : List Nat) (s : St), (send o data s).1 = .ok none) ∧
    (∀ (o : Oracle) (s : St) (intensity : Int), 0 ≤ intensity →
      intensity ≤ 255 → (set_volume o intensity s).1 = .ok none) ∧
    (∀ (o : Oracle) (s : St), VolOk s.sess.volume →
      (turn_on o s).1 = .ok none) := by
  refine ⟨?_, ?_, ?_, ?_, ?_, ?_, ?_⟩
  · intro o s
    obtain ⟨s', hs, _⟩ := turn_off_res o s
    rw [hs]
  · intro o s
    obtain ⟨s', hs, _⟩ := aux_res o s
    rw [hs]
  · intro o s
    obtain ⟨s', hs, _⟩ := bluetooth_res o s
    rw [hs]
  · intro o s
    obtain ⟨s', hs, _⟩ := disconnect_res o s
    rw [hs]
  · intro o data s
    obtain ⟨s', hs, _⟩ := send_res o data s
    rw [hs]
  · intro o s intensity h0 h1
    obtain ⟨s', hs, _⟩ := set_volume_res o intensity s h0 h1
    rw [hs]
  · intro o s hv
    obtain ⟨s', hs, _⟩ := turn_on_res o s hv
    rw [hs]

/-- C5 amended witness at concrete inputs, including a transport whose
primitives all raise. -/
theorem C5_amended_witness :
    (turn_off oNoDevice stConn).1 = .ok none ∧
    (aux oNoDevice stFresh).1 = .ok none ∧
    (bluetooth oGood stConn).1 = .ok none ∧
    (disconnect oNoDevice stConn).1 = .ok none ∧
    (send oNoDevice powerOffData stConn).1 = .ok none ∧
    (set_volume oNoDevice 100 stFresh).1 = .ok none ∧
    (turn_on oNoDevice stFresh).1 = .ok none :=
  ⟨C5_amended_no_exception_escapes.1 oNoDevice stConn,
   C5_amended_no_exception_escapes.2.1 oNoDevice stFresh,
   C5_amended_no_exception_escapes.2.2.1 oGood stConn,
   C5_amended_no_exception_escapes.2.2.2.1 oNoDevice stConn,
   C5_amended_no_exception_escapes.2.2.2.2.1 oNoDevice powerOffData stConn,
   C5_amended_no_exception_escapes.2.2.2.2.2.1 oNoDevice stFresh 100
     (by decide) (by decide),
   C5_amended_no_exception_escapes.2.2.2.2.2.2 oNoDevice stFresh
     (show (0 : Int) ≤ 0 ∧ (0 : Int) ≤ 255 from ⟨by decide, by decide⟩)⟩

/-- C3: for every intensity in [0, 255], the volume frame has command
byte `intensity / 5` (the bucket, at most 51), laid out as the header
`7e0f1d`, the bucket byte, ten zero bytes and the suffix
`(bucket + 170) % 256`; the payload written is that 15-byte frame
followed by its CRC-8/MAXIM byte. -/
theorem C3_volume_frame (o : Oracle) (s : St) (intensity : Int)
    (h0 : 0 ≤ intensity) (h1 : intensity ≤ 255) :
    ∃ F, powerVolFrame (pyTrunc5 intensity) = .ok F ∧
      F = headerBytes ++ [intensity.toNat / 5] ++ List.replicate 10 0 ++
        [(intensity.toNat / 5 + 170) % 256] ∧
      F.length = 15 ∧ intensity.toNat / 5 ≤ 51 ∧
      (set_volume o intensity s).2.sendLog = s.sendLog ++ [F] ∧
      (∃ k, k ≤ 2 ∧ (set_volume o intensity s).2.writeLog =
        s.writeLog ++ List.replicate k (F ++ [crc8Maxim F])) := by
  have ht := pyTrunc5_toNat intensity h0
  have hF : volFrameData (pyTrunc5 intensity) =
      headerBytes ++ [intensity.toNat / 5] ++ List.replicate 10 0 ++
        [(intensity.toNat / 5 + 170) % 256] := by
    have e1 : ((intensity.toNat / 5 : Nat) : Int).toNat = intensity.toNat / 5 := by
      omega
    have e2 : (((intensity.toNat / 5 : Nat) : Int) + 170).toNat =
        (intensity.toNat / 5 + 170) % 256 := by
      omega
    rw [ht]
    unfold volFrameData
    rw [e1, e2]
    rfl
  obtain ⟨s', hs, _, _, _, g4, k, hk, g5⟩ := set_volume_res o intensity s h0 h1
  refine ⟨volFrameData (pyTrunc5 intensity), ?_, hF, ?_, by omega, ?_, ⟨k, hk, ?_⟩⟩
  · have hb0 : 0 ≤ pyTrunc5 intensity := by rw [ht]; omega
    exact powerVolFrame_ok _ hb0 (by rw [ht]; omega)
  · rw [hF]
    rfl
  · rw [hs]
    exact g4
  · rw [hs]
    simpa [sendPayload] using g5

/-- C3 witness at intensity 100 on a connected session. -/
theorem C3_witness :
    ∃ F, powerVolFrame (pyTrunc5 100) = .ok F ∧
      F = headerBytes ++ [(100 : Int).toNat / 5] ++ List.replicate 10 0 ++
        [((100 : Int).toNat / 5 + 170) % 256] ∧
      F.length = 15 ∧ (100 : Int).toNat / 5 ≤ 51 ∧
      (set_volume oGood 100 stConn).2.sendLog = stConn.sendLog ++ [F] ∧
      (∃ k, k ≤ 2 ∧ (set_volume oGood 100 stConn).2.writeLog =
        stConn.writeLog ++ List.replicate k (F ++ [crc8Maxim F])) :=
  C3_volume_frame oGood stConn 100 (by decide) (by decide)

/-- C9: for every intensity in [0, 255], the run `set_volume;
turn_off; turn_on` submits, at the `turn_on` step, the very frame the
`set_volume` step submitted — in particular the same command byte
`intensity / 5` at index 3 — because the volume cache survives
`turn_off`. -/
theorem C9_round_trip_restores_bucket (o : Oracle) (s : St) (intensity : Int)
    (h0 : 0 ≤ intensity) (h1 : intensity ≤ 255) :
    ∃ s₁ s₂ s₃ F,
      set_volume o intensity s = (.ok none, s₁) ∧
      turn_off o s₁ = (.ok none, s₂) ∧
      turn_on o s₂ = (.ok none, s₃) ∧
      s₂.sess.volume = some intensity ∧
      powerVolFrame (pyTrunc5 intensity) = .ok F ∧
      s₁.sendLog = s.sendLog ++ [F] ∧
      s₃.sendLog = s₂.sendLog ++ [F] ∧
      F[3]? = some (intensity.toNat / 5) := by
  have ht := pyTrunc5_toNat intensity h0
  obtain ⟨s₁, hs1, _, _, e3, e4, _⟩ := set_volume_res o intensity s h0 h1
  obtain ⟨s₂, hs2, _, _, f3, _, _⟩ := turn_off_res o s₁
  rw [e3] at f3
  have hvol2 : VolOk s₂.sess.volume := by
    rw [f3]
    exact ⟨h0, h1⟩
  obtain ⟨s₃, hs3, _, _, _, g4, _⟩ := turn_on_res o s₂ hvol2
  rw [f3] at g4
  refine ⟨s₁, s₂, s₃, volFrameData (pyTrunc5 intensity), hs1, hs2, hs3, f3,
    powerVolFrame_ok _ (by rw [ht]; omega) (by rw [ht]; omega), e4,
    by simpa [onBucket] using g4, ?_⟩
  unfold volFrameData headerBytes
  rw [ht]
  simp
  omega

/-- C9 witness at intensity 100 starting from a fresh session. -/
theorem C9_witness :
    ∃ s₁ s₂ s₃ F,
      set_volume oGood 100 stFresh = (.ok none, s₁) ∧
      turn_off oGood s₁ = (.ok none, s₂) ∧
      turn_on oGood s₂ = (.ok none, s₃) ∧
      s₂.sess.volume = some 100 ∧
      powerVolFrame (pyTrunc5 100) = .ok F ∧
      s₁.sendLog = stFresh.sendLog ++ [F] ∧
      s₃.sendLog = s₂.sendLog ++ [F] ∧
      F[3]? = some ((100 : Int).toNat / 5) :=
  C9_round_trip_restores_bucket oGood stFresh 100 (by decide) (by decide)

/-- C10: `async_mute_volume(mute)` sends the device
`int(level * 255) * int(mute)`: muting transmits the current volume
level, unmuting transmits 0 (the session caches that value as its
volume). -/
theorem C10_mute_sends_level_times_mute (o : Oracle) (mute : Bool)
    (mp : AmplifierState) (s : St)
    (h0 : 0 ≤ mp.media_volume_level) (h1 : mp.media_volume_level ≤ 1) :
    ∃ s', async_mute_volume o mute mp s =
        (.ok none, ({ mp with muted := mute }, s')) ∧
      s'.sess.volume =
        some (ratTrunc (mp.media_volume_level * volume_max) * intOfBool mute) ∧
      (mute = true →
        s'.sess.volume = some (ratTrunc (mp.media_volume_level * volume_max))) ∧
      (mute = false → s'.sess.volume = some 0) := by
  have hq0 : (0 : ℚ) ≤ mp.media_volume_level * volume_max :=
    mul_nonneg h0 (by norm_num [volume_max])
  have hq1 : mp.media_volume_level * volume_max ≤ 255 := by
    have : mp.media_volume_level * volume_max ≤ 1 * volume_max :=
      mul_le_mul_of_nonneg_right h1 (by norm_num [volume_max])
    simpa [volume_max] using this
  have htr : ratTrunc (mp.media_volume_level * volume_max) =
      ⌊mp.media_volume_level * volume_max⌋ := by
    unfold ratTrunc
    rw [if_pos hq0]
  have hf0 : 0 ≤ ⌊mp.media_volume_level * volume_max⌋ :=
    Int.floor_nonneg.mpr hq0
  have hf1 : ⌊mp.media_volume_level * volume_max⌋ ≤ 255 := by
    have := Int.floor_le_floor hq1
    simpa using this
  have hi0 : 0 ≤ ratTrunc (mp.media_volume_level * volume_max) * intOfBool mute := by
    rcases mute
    · simp [intOfBool]
    · simp [intOfBool, htr]
      omega
  have hi1 : ratTrunc (mp.media_volume_level * volume_max) * intOfBool mute ≤ 255 := by
    rcases mute
    · simp [intOfBool]
    · simp [intOfBool, htr]
      omega
  unfold async_mute_volume
  dsimp only
  obtain ⟨s', hs, _, _, g3, _, _⟩ :=
    set_volume_res o
      (ratTrunc (mp.media_volume_level * volume_max) * intOfBool mute) s hi0 hi1
  rw [hs]
  refine ⟨s', rfl, g3, ?_, ?_⟩
  · intro hm
    rw [g3, hm]
    simp [intOfBool]
  · intro hm
    rw [g3, hm]
    simp [intOfBool]

/-- C10 witness: level 1/2, both mute values. -/
theorem C10_witness :
    ∃ s', async_mute_volume oGood true
        { muted := false, media_volume_level := 1/2 } stConn =
        (.ok none,
          ({ muted := true, media_volume_level := 1/2 }, s')) ∧
      s'.sess.volume = some (ratTrunc ((1/2 : ℚ) * volume_max) * intOfBool true) ∧
      (true = true → s'.sess.volume = some (ratTrunc ((1/2 : ℚ) * volume_max))) ∧
      (true = false → s'.sess.volume = some 0) :=
  C10_mute_sends_level_times_mute oGood true
    { muted := false, media_volume_level := 1/2 } stConn
    (by norm_num) (by norm_num)

/-- C4: per `_send` call, at most 2 write attempts, at most 2 entries
into `connect()` and at most 2 GATT connect attempts occur, for every
transport behavior; and when the session is live and the first write
raises `BleakError`, exactly one reconnect (`connect()` call) happens,
followed by exactly one retried write when — and only when — the
reconnect succeeds. -/
theorem C4_retry_policy :
    (∀ (o : Oracle) (data : List Nat) (s : St),
      (send o data s).2.cnt.nWrite ≤ s.cnt.nWrite + 2 ∧
      (send o data s).2.cnt.nGattConnect ≤ s.cnt.nGattConnect + 2 ∧
      (send o data s).2.cnt.nConnectCalls ≤ s.cnt.nConnectCalls + 2) ∧
    (∀ (o : Oracle) (data : List Nat) (s : St) (d : BleakClient),
      s.sess.device = some d → o.isConn s.cnt.nIsConn = true →
      o.write s.cnt.nWrite = .bleakErr →
      ∃ b s₂,
        connect o (logWrite (sendPayload data) (bumpIsConn (logSend data s))) =
          (b, s₂) ∧
        s₂.cnt.nConnectCalls = s.cnt.nConnectCalls + 1 ∧
        (send o data s).2 =
          (if b then logWrite (sendPayload data) s₂ else s₂) ∧
        (send o data s).2.cnt.nWrite =
          s.cnt.nWrite + (if b then 2 else 1)) := by
  constructor
  · intro o data s
    obtain ⟨s', hs, _, _, _, _, ⟨k, hk, _, g6⟩, g7, g8⟩ := send_res o data s
    rw [hs]
    dsimp only
    exact ⟨by omega, g7, g8⟩
  · intro o data s d hdev hlive hfail
    unfold send sendAttempts
    dsimp only
    simp only [logSend, bumpIsConn, logWrite, hdev, hlive, hfail]
    obtain ⟨b, s₂, hc, g1, g2, g3, g4, g5, g6, g7, g8, g9⟩ :=
      connect_res o
        (logWrite (sendPayload data) (bumpIsConn (logSend data s)))
    simp only [logWrite, bumpIsConn, logSend] at hc g6 g7
    rw [hc]
    rcases b
    · exact ⟨false, s₂, rfl, by simpa using g7, by simp, by simp; omega⟩
    · exact ⟨true, s₂, rfl, by simpa using g7,
        by simp [logWrite], by simp [logWrite]; omega⟩

/-- C4 witness: on a live session whose first write fails, the
reconnect succeeds via the early `is_connected` return and the write is
retried once, for 2 writes total. -/
theorem C4_witness :
    ((send oGood powerOffData stConn).2.cnt.nWrite ≤ stConn.cnt.nWrite + 2 ∧
      (send oGood powerOffData stConn).2.cnt.nGattConnect ≤
        stConn.cnt.nGattConnect + 2 ∧
      (send oGood powerOffData stConn).2.cnt.nConnectCalls ≤
        stConn.cnt.nConnectCalls + 2) ∧
    (∃ b s₂,
      connect oFirstWriteFails
          (logWrite (sendPayload powerOffData)
            (bumpIsConn (logSend powerOffData stConn))) = (b, s₂) ∧
      s₂.cnt.nConnectCalls = stConn.cnt.nConnectCalls + 1 ∧
      (send oFirstWriteFails powerOffData stConn).2 =
        (if b then logWrite (sendPayload powerOffData) s₂ else s₂) ∧
      (send oFirstWriteFails powerOffData stConn).2.cnt.nWrite =
        stConn.cnt.nWrite + (if b then 2 else 1)) :=
  ⟨C4_retry_policy.1 oGood powerOffData stConn,
   C4_retry_policy.2 oFirstWriteFails powerOffData stConn
     { dev := devA } rfl rfl rfl⟩

end Sinilink
